import Mathlib

/-!
Verification of the Identity & Access Core of the MicroservicesLab
IdentityService repository, as a shallow embedding in Lean 4.

Embedding conventions:
* timestamps are integers (seconds, UTC); the source normalises every
  datetime to timezone-aware UTC before comparing, so a single integer
  timeline is faithful;
* UUID primary keys become natural numbers;
* the relational store is a record of row lists, and each SQLAlchemy
  select/join is translated join-by-join into nested list traversals;
* fallible code returns `Except`, repository writes are returned
  explicitly (either as the list of `update_user` calls or as the updated
  store), and Python dicts become insertion-ordered association lists.
-/

namespace IdentityService

/-! ## Password Policy (`core/password_validator.py`) -/

namespace PasswordValidator

def MIN_LENGTH : Nat := 8

def MAX_LENGTH : Nat := 100

/-- The character class of the source regex
`[!@#$%^&*(),.?\":\x7b\x7d|<>[\]\\\/~;'_\-+=]` (plus backtick), spelled out
as the set of characters it matches. -/
def SPECIAL_CHARACTERS : String := "!@#$%^&*(),.?\":\x7b\x7d|<>[]\\/`~;'_-+="

/-- Translation of `re.search(r"[A-Z]", password)` being non-`None`. -/
def hasUppercase (password : String) : Bool :=
  password.data.any (fun c => 'A' ≤ c && c ≤ 'Z')

/-- Translation of `re.search(r"[a-z]", password)` being non-`None`. -/
def hasLowercase (password : String) : Bool :=
  password.data.any (fun c => 'a' ≤ c && c ≤ 'z')

/-- Translation of `re.search(r"\d", password)` being non-`None` (ASCII
digits; the claims only involve ASCII inputs). -/
def hasDigit (password : String) : Bool :=
  password.data.any (fun c => '0' ≤ c && c ≤ '9')

/-- Translation of `re.search(cls.SPECIAL_CHARACTERS, password)` being
non-`None`. -/
def hasSpecial (password : String) : Bool :=
  password.data.any (fun c => SPECIAL_CHARACTERS.data.contains c)

def msgMinLength : String := "Password must be at least 8 characters long"

def msgMaxLength : String := "Password must not exceed 100 characters"

def msgUppercase : String := "Password must contain at least one uppercase letter"

def msgLowercase : String := "Password must contain at least one lowercase letter"

def msgDigit : String := "Password must contain at least one digit"

def msgSpecial : String := "Password must contain at least one special character"

/-- The `errors` list built by `PasswordValidator.validate`, in source
order: min length, max length, uppercase, lowercase, digit, special. -/
def collectErrors (password : String) : List String :=
  (if password.data.length < MIN_LENGTH then [msgMinLength] else [])
    ++ (if password.data.length > MAX_LENGTH then [msgMaxLength] else [])
    ++ (if ¬ hasUppercase password then [msgUppercase] else [])
    ++ (if ¬ hasLowercase password then [msgLowercase] else [])
    ++ (if ¬ hasDigit password then [msgDigit] else [])
    ++ (if ¬ hasSpecial password then [msgSpecial] else [])

/-- Translation of `PasswordValidator.validate`: raises
`PasswordValidationError(errors)` exactly when the collected list is
non-empty. -/
def validate (password : String) : Except (List String) Unit :=
  let errors := collectErrors password
  if errors.isEmpty then Except.ok () else Except.error errors

/-- Translation of `PasswordValidator.is_valid`. -/
def is_valid (password : String) : Bool :=
  match validate password with
  | Except.ok _ => true
  | Except.error _ => false

end PasswordValidator

/-! ## User model and user repository
(`domain/entities/user_model.py`, `infrastructure/repositories/user_repository.py`)

The domain `UserModel` as actually round-tripped by
`UserRepository._to_domain` / `_update_datamodel` carries the lockout
bookkeeping fields (`failed_login_attempts`, `locked_until`) used by
`AuthenticateService`; profile fields that no verified operation reads
(names, timestamps, soft-delete flag) are omitted. -/

structure UserModel where
  id : Option Nat
  email : String
  hashed_password : String
  failed_login_attempts : Nat
  locked_until : Option Int
  is_active : Bool := false
  is_verified : Bool := false
deriving Repr, DecidableEq

/-- Translation of `UserRepository.get_by_email`: first row whose email
column equals the argument. -/
def get_by_email (store : List UserModel) (email : String) : Option UserModel :=
  store.find? (fun u => u.email == email)

/-- Translation of `UserRepository.get_by_id`: first row whose id column
equals the argument. -/
def user_get_by_id (store : List UserModel) (uid : Nat) : Option UserModel :=
  store.find? (fun u => u.id == some uid)

/-- Translation of `UserRepository.update_user`: the row with the user's
id is overwritten with the given field values. -/
def update_user_in_store (store : List UserModel) (user : UserModel) : List UserModel :=
  store.map (fun u => if u.id == user.id then user else u)

/-! ## Authenticator / Account Lockout Engine
(`application/services/auth_service.py`) -/

/-- Translation of `AccountLockedError`; the source formats
`locked_until` with `strftime` into a human-readable UTC string, which we
abstract to the carried timestamp itself. -/
inductive AuthError where
  | accountLocked (locked_until : Int)
deriving Repr, DecidableEq

/-- Outcome of one `authenticate_user` call: the returned value (or the
raised `AccountLockedError`) together with the sequence of
`update_user` persistence calls the service issued. -/
structure AuthOutcome where
  result : Except AuthError (Option UserModel)
  updates : List UserModel
deriving Repr

/-- Configuration of `AuthenticateService.__init__`. -/
structure AuthenticateService where
  max_failed_password_attempts : Nat
  lockout_duration_in_minutes : Nat
deriving Repr, DecidableEq

/-- Default of `Settings.max_failed_password_attempts` (`core/settings.py`). -/
def default_max_failed_password_attempts : Nat := 3

/-- Default of `Settings.lockout_duration_in_minutes` (`core/settings.py`). -/
def default_lockout_duration_in_minutes : Nat := 60

/-- Tail of `AuthenticateService.authenticate_user` from the
`get_bcrypt_context().verify(...)` call on (reached when the account is
not currently locked).  `verify` stands for the external bcrypt
comparison; `now_utc` is the time captured at the start of the call;
`timedelta(minutes=m)` becomes `60 * m` seconds. -/
def authenticate_verify_step (svc : AuthenticateService)
    (verify : String → String → Bool) (user : UserModel)
    (password : String) (now_utc : Int) : AuthOutcome :=
  if verify password user.hashed_password then
    -- Successful login - reset failed attempts
    if user.failed_login_attempts > 0 || user.locked_until.isSome then
      let reset : UserModel :=
        { user with failed_login_attempts := 0, locked_until := none }
      { result := Except.ok (some reset), updates := [reset] }
    else
      { result := Except.ok (some user), updates := [] }
  else
    -- Failed login - increment counter, lock if max attempts reached
    let attempted : UserModel :=
      { user with failed_login_attempts := user.failed_login_attempts + 1 }
    let attempted : UserModel :=
      if attempted.failed_login_attempts ≥ svc.max_failed_password_attempts then
        { attempted with
            locked_until :=
              some (now_utc + 60 * (svc.lockout_duration_in_minutes : Int)) }
      else attempted
    { result := Except.ok none, updates := [attempted] }

/-- Translation of `AuthenticateService.authenticate_user`.  The source's
string-parsing and naive-datetime branches for `locked_until` all
normalise to a timezone-aware UTC value, which the integer timeline
represents directly. -/
def authenticate_user (svc : AuthenticateService)
    (verify : String → String → Bool) (store : List UserModel)
    (email password : String) (now_utc : Int) : AuthOutcome :=
  match get_by_email store email with
  | none => { result := Except.ok none, updates := [] }
  | some user =>
    match user.locked_until with
    | some locked_until_aware =>
      if locked_until_aware > now_utc then
        { result := Except.error (AuthError.accountLocked locked_until_aware),
          updates := [] }
      else
        authenticate_verify_step svc verify user password now_utc
    | none => authenticate_verify_step svc verify user password now_utc

/-- Translation of `AuthenticateService.unlock_account`, returning the
boolean result together with the store after the `update_user` call. -/
def unlock_account (store : List UserModel) (user_id : Nat) :
    Bool × List UserModel :=
  match user_get_by_id store user_id with
  | none => (false, store)
  | some user =>
    let reset : UserModel :=
      { user with failed_login_attempts := 0, locked_until := none }
    (true, update_user_in_store store reset)

/-! ## Relational store (`infrastructure/databases/models.py`)
Row types keep exactly the columns the verified queries touch; UUID
columns become `Nat`. -/

structure ServiceRow where
  id : Nat
  name : String
deriving Repr, DecidableEq

structure RoleRow where
  id : Nat
  service_id : Nat
  name : String
  description : String := ""
deriving Repr, DecidableEq

structure UserRoleRow where
  user_id : Nat
  role_id : Nat
deriving Repr, DecidableEq

structure PermissionRow where
  id : Nat
  service_id : Nat
  name : String
  resource : String
  action : String
deriving Repr, DecidableEq

structure RolePermissionRow where
  role_id : Nat
  permission_id : Nat
deriving Repr, DecidableEq

structure UserPermissionRow where
  user_id : Nat
  permission_id : Nat
deriving Repr, DecidableEq

structure DB where
  services : List ServiceRow
  roles : List RoleRow
  user_roles : List UserRoleRow
  permissions : List PermissionRow
  role_permissions : List RolePermissionRow
  user_permissions : List UserPermissionRow
deriving Repr

/-! ## Role repository (`infrastructure/repositories/role_repository.py`) -/

/-- Domain `RoleModel` (`domain/entities/role_model.py`) as produced by
`RoleRepository._to_domain`. -/
structure RoleModel where
  id : Nat
  service : String
  name : String
  description : String
  service_id : Nat
deriving Repr, DecidableEq

/-- Translation of the join in `RoleRepository.get_user_roles`:
`roles` joined with `user_roles` on `role_id`, with `services` on
`service_id`, filtered on the user's id (an absent id matches no row,
as a SQL comparison against NULL). -/
def get_user_roles (db : DB) (user : UserModel) : List RoleModel :=
  db.roles.flatMap (fun r =>
    db.user_roles.flatMap (fun ur =>
      db.services.flatMap (fun s =>
        if ur.role_id == r.id && r.service_id == s.id
            && some ur.user_id == user.id then
          [{ id := r.id, service := s.name, name := r.name,
             description := r.description, service_id := r.service_id }]
        else [])))

/-- Translation of the role-based query of
`RoleRepository.check_user_permission`: `roles` joined with `user_roles`,
`role_permissions`, `permissions` and `services` (the service join is on
the permission's `service_id`), filtered on user id, service name,
resource and action; the code only asks whether a first row exists. -/
def check_role_permission (db : DB) (uid : Nat)
    (service_name resource action : String) : Bool :=
  db.roles.any (fun r =>
    db.user_roles.any (fun ur =>
      db.role_permissions.any (fun rp =>
        db.permissions.any (fun p =>
          db.services.any (fun s =>
            ur.role_id == r.id && rp.role_id == r.id
              && p.id == rp.permission_id && s.id == p.service_id
              && ur.user_id == uid && s.name == service_name
              && p.resource == resource && p.action == action)))))

/-- Translation of the direct-grant query of
`RoleRepository.check_user_permission`: `permissions` joined with
`user_permissions` and `services`, same filters. -/
def check_direct_permission (db : DB) (uid : Nat)
    (service_name resource action : String) : Bool :=
  db.permissions.any (fun p =>
    db.user_permissions.any (fun up =>
      db.services.any (fun s =>
        up.permission_id == p.id && s.id == p.service_id
          && up.user_id == uid && s.name == service_name
          && p.resource == resource && p.action == action)))

/-- Translation of `RoleRepository.check_user_permission`: `False` for a
missing user id; otherwise the role-based query runs first and the
direct-grant query only when it found no row. -/
def check_user_permission (db : DB) (user : UserModel)
    (service_name resource action : String) : Bool :=
  match user.id with
  | none => false
  | some uid =>
    if check_role_permission db uid service_name resource action then true
    else check_direct_permission db uid service_name resource action

/-- Entry shape produced by `RoleRepository.get_user_permissions` (the
dict with keys service_name, resource, action, name, source). -/
structure PermEntry where
  service_name : String
  resource : String
  action : String
  name : String
  source : String
deriving Repr, DecidableEq

/-- Rows of the role-based query of `RoleRepository.get_user_permissions`
before the `DISTINCT`: `(permission, service name)` pairs from
`permissions` joined with `role_permissions`, `user_roles` and
`services`, filtered on user id and the optional service-name filter. -/
def rolePermRows (db : DB) (uid : Nat) (service_filter : Option String) :
    List (PermissionRow × String) :=
  db.permissions.flatMap (fun p =>
    db.role_permissions.flatMap (fun rp =>
      db.user_roles.flatMap (fun ur =>
        db.services.flatMap (fun s =>
          if rp.permission_id == p.id && ur.role_id == rp.role_id
              && s.id == p.service_id && ur.user_id == uid
              && (match service_filter with
                  | none => true
                  | some sn => s.name == sn) then
            [(p, s.name)]
          else []))))

/-- Rows of the direct-grant query of
`RoleRepository.get_user_permissions` (no `DISTINCT` here):
`(permission, service name)` pairs from `permissions` joined with
`user_permissions` and `services`, same filters. -/
def directPermRows (db : DB) (uid : Nat) (service_filter : Option String) :
    List (PermissionRow × String) :=
  db.permissions.flatMap (fun p =>
    db.user_permissions.flatMap (fun up =>
      db.services.flatMap (fun s =>
        if up.permission_id == p.id && s.id == p.service_id
            && up.user_id == uid
            && (match service_filter with
                | none => true
                | some sn => s.name == sn) then
          [(p, s.name)]
        else [])))

/-- Entry built in the role-based loop of `get_user_permissions`. -/
def mkRoleEntry (row : PermissionRow × String) : PermEntry :=
  { service_name := row.2, resource := row.1.resource,
    action := row.1.action, name := row.1.name, source := "role" }

/-- Entry built in the direct-grant loop of `get_user_permissions`. -/
def mkDirectEntry (row : PermissionRow × String) : PermEntry :=
  { service_name := row.2, resource := row.1.resource,
    action := row.1.action, name := row.1.name, source := "direct" }

/-- Translation of `RoleRepository.get_user_permissions`: empty for a
missing user id; otherwise the de-duplicated (`.distinct()`) role-based
rows, tagged `source='role'`, followed by the direct-grant rows, tagged
`source='direct'`, with no de-duplication applied to the latter. -/
def get_user_permissions (db : DB) (user : UserModel)
    (service_filter : Option String) : List PermEntry :=
  match user.id with
  | none => []
  | some uid =>
    ((rolePermRows db uid service_filter).dedup.map mkRoleEntry)
      ++ ((directPermRows db uid service_filter).map mkDirectEntry)

/-! ## Token Service (`application/services/token_service.py`,
`domain/entities/token_model.py`, `application/routers/dependency_utils.py`) -/

/-- Translation of `ServiceModel` restricted to the fields
`TokenService` reads (`name`); `ServiceRepository._to_domain` copies the
row, so the store row stands for the domain model. -/
def service_get_by_id (db : DB) (service_id : Nat) : Option ServiceRow :=
  db.services.find? (fun s => s.id == service_id)

/-- Translation of `TokenPayload` (`domain/entities/token_model.py`);
the `roles` dict becomes an insertion-ordered association list. -/
structure TokenPayload where
  sub : Nat
  email : String
  roles : List (String × List String)
  exp : Int
  iat : Int
deriving Repr, DecidableEq

/-- Python `key in dict`. -/
def dictContains (d : List (String × List String)) (k : String) : Bool :=
  d.any (fun kv => kv.1 == k)

/-- Python `d[k] = v`: overwrite in place when the key exists (keeping
its position), append otherwise. -/
def dictSet (d : List (String × List String)) (k : String)
    (v : List String) : List (String × List String) :=
  match d with
  | [] => [(k, v)]
  | kv :: rest =>
    if kv.1 == k then (k, v) :: rest else kv :: dictSet rest k v

/-- Python `d[k].append(x)`: raises `KeyError` when the key is absent. -/
def dictAppend (d : List (String × List String)) (k : String)
    (x : String) : Except String (List (String × List String)) :=
  match d with
  | [] => Except.error "KeyError"
  | kv :: rest =>
    if kv.1 == k then Except.ok ((kv.1, kv.2 ++ [x]) :: rest)
    else
      match dictAppend rest k x with
      | Except.ok rest2 => Except.ok (kv :: rest2)
      | Except.error e => Except.error e

/-- Python `d.get(k)`. -/
def dictGet (d : List (String × List String)) (k : String) :
    Option (List String) :=
  match d.find? (fun kv => kv.1 == k) with
  | some kv => some kv.2
  | none => none

/-- The role-grouping loop body of `TokenService.create_access_token`,
verbatim: the key looked up by the `in` test is the stringified service
id, while insertion and append both use the service name. -/
def group_roles_step (db : DB) (acc : List (String × List String))
    (role : RoleModel) : Except String (List (String × List String)) := do
  let service_id : String := toString role.service_id
  match service_get_by_id db role.service_id with
  | none => Except.error ("No service found for service id : " ++ service_id)
  | some service_model =>
    let acc :=
      if ¬ dictContains acc service_id then
        dictSet acc service_model.name []
      else acc
    dictAppend acc service_model.name role.name

/-- The whole role-grouping loop of `TokenService.create_access_token`. -/
def group_roles (db : DB) (user_roles : List RoleModel) :
    Except String (List (String × List String)) :=
  user_roles.foldlM (group_roles_step db) []

/-- Configuration of `TokenService.__init__` (repositories are passed
separately as the store arguments). -/
structure TokenService where
  secret_key : String
  algorithm : String
deriving Repr, DecidableEq

/-- Modelled from the spec: the compact signed token produced by the
external JWT codec (`jwt.encode`), three base64url segments
header.payload.signature.  The header records the algorithm and the
signature binds the payload to the signing key, so the model keeps the
payload together with the key and algorithm used to sign. -/
structure JwtToken where
  payload : TokenPayload
  key : String
  alg : String
deriving Repr, DecidableEq

/-- Modelled from the spec: `jwt.encode(token_data, key, algorithm)`. -/
def jwt_encode (payload : TokenPayload) (key alg : String) : JwtToken :=
  { payload := payload, key := key, alg := alg }

/-- Modelled from the spec: `jwt.decode(token, key, algorithm)` verifies
signature and expiry and fails closed: a token signed with a different
key or algorithm, or whose expiry has passed, yields a verification
error and never a partial decode. -/
def jwt_decode (token : JwtToken) (key alg : String) (now : Int) :
    Except String TokenPayload :=
  if token.key ≠ key ∨ token.alg ≠ alg then
    Except.error "Signature verification failed"
  else if token.payload.exp ≤ now then
    Except.error "Signature has expired"
  else
    Except.ok token.payload

/-- Translation of `TokenService.create_access_token`:
requires a persisted id, fetches the user's roles, groups role names by
service with `group_roles`, builds the payload and signs it.
`expires_delta` is seconds (source default: one hour). -/
def create_access_token (svc : TokenService) (db : DB)
    (user : UserModel) (expires_delta : Int)
    (now : Int) : Except String JwtToken :=
  match user.id with
  | none => Except.error "Id cannot be null when creating a token"
  | some uid => do
    let user_roles := get_user_roles db user
    let roles_by_service ← group_roles db user_roles
    let payload : TokenPayload :=
      { sub := uid, email := user.email, roles := roles_by_service,
        exp := now + expires_delta, iat := now }
    Except.ok (jwt_encode payload svc.secret_key svc.algorithm)

/-- Translation of `UserWithRolesModel` as consumed by the routers. -/
structure UserWithRolesModel where
  user : UserModel
  roles : List RoleModel
deriving Repr, DecidableEq

/-- Translation of `TokenService.get_user`: decode, re-fetch the user by
the token subject, error when absent, re-fetch the roles, error when
empty. -/
def token_get_user (svc : TokenService) (db : DB)
    (store : List UserModel) (token : JwtToken) (now : Int) :
    Except String UserWithRolesModel := do
  let payload ← jwt_decode token svc.secret_key svc.algorithm now
  match user_get_by_id store payload.sub with
  | none => Except.error "Cannot read the user data"
  | some user =>
    let roles := get_user_roles db user
    if roles.length == 0 then
      Except.error "Cannot read the user roles"
    else
      Except.ok { user := user, roles := roles }

/-- Translation of `get_authenticated_user`
(`application/routers/dependency_utils.py`): every failure of
`TokenService.get_user` is collapsed to one generic 401 detail. -/
def get_authenticated_user (svc : TokenService) (db : DB)
    (store : List UserModel) (token : JwtToken) (now : Int) :
    Except String UserWithRolesModel :=
  match token_get_user svc db store token now with
  | Except.ok u => Except.ok u
  | Except.error _ => Except.error "Invalid or expired token."

/-! ## Theorems -/

section PasswordTheorems

open PasswordValidator

theorem collectErrors_eq_nil_iff (p : String) :
    collectErrors p = []
      ↔ (MIN_LENGTH ≤ p.data.length ∧ p.data.length ≤ MAX_LENGTH
          ∧ hasUppercase p = true ∧ hasLowercase p = true
          ∧ hasDigit p = true ∧ hasSpecial p = true) := by
  unfold collectErrors
  split_ifs <;> simp_all [MIN_LENGTH, MAX_LENGTH]

theorem collectErrors_mem (p : String) :
    (msgMinLength ∈ collectErrors p ↔ p.data.length < MIN_LENGTH)
      ∧ (msgMaxLength ∈ collectErrors p ↔ MAX_LENGTH < p.data.length)
      ∧ (msgUppercase ∈ collectErrors p ↔ hasUppercase p = false)
      ∧ (msgLowercase ∈ collectErrors p ↔ hasLowercase p = false)
      ∧ (msgDigit ∈ collectErrors p ↔ hasDigit p = false)
      ∧ (msgSpecial ∈ collectErrors p ↔ hasSpecial p = false) := by
  unfold collectErrors
  split_ifs <;>
    simp_all [MIN_LENGTH, MAX_LENGTH, msgMinLength, msgMaxLength,
      msgUppercase, msgLowercase, msgDigit, msgSpecial]

/-- Claim C9: `PasswordValidator.validate` checks all six rules (length
at least 8, length at most 100, an uppercase letter, a lowercase letter,
a digit, a special character) and on failure raises one error carrying
the complete list of every violated rule; `"Abcdef1!"` passes,
`"abcdefgh"` fails with exactly the 3 collected reasons, and a
101-character password fails the maximum-length rule. -/
theorem claim_C9_password_policy (p : String) :
    (validate p = Except.ok ()
        ↔ (MIN_LENGTH ≤ p.data.length ∧ p.data.length ≤ MAX_LENGTH
            ∧ hasUppercase p = true ∧ hasLowercase p = true
            ∧ hasDigit p = true ∧ hasSpecial p = true))
      ∧ (∀ errs, validate p = Except.error errs →
          ((msgMinLength ∈ errs ↔ p.data.length < MIN_LENGTH)
            ∧ (msgMaxLength ∈ errs ↔ MAX_LENGTH < p.data.length)
            ∧ (msgUppercase ∈ errs ↔ hasUppercase p = false)
            ∧ (msgLowercase ∈ errs ↔ hasLowercase p = false)
            ∧ (msgDigit ∈ errs ↔ hasDigit p = false)
            ∧ (msgSpecial ∈ errs ↔ hasSpecial p = false)))
      ∧ validate "Abcdef1!" = Except.ok ()
      ∧ validate "abcdefgh" = Except.error [msgUppercase, msgDigit, msgSpecial]
      ∧ (∀ q : String, q.data.length = 101 →
          ∃ errs, validate q = Except.error errs ∧ msgMaxLength ∈ errs) := by
  refine ⟨?_, ?_, by rfl, by rfl, ?_⟩
  · rw [← collectErrors_eq_nil_iff]
    unfold validate
    simp only []
    constructor
    · intro h
      by_cases hc : (collectErrors p).isEmpty
      · exact List.isEmpty_iff.mp hc
      · simp [hc] at h
    · intro h
      simp [h]
  · intro errs herr
    have hcoll : errs = collectErrors p := by
      unfold validate at herr
      by_cases hc : (collectErrors p).isEmpty
      · simp [hc] at herr
      · simp [hc] at herr
        exact herr.symm
    subst hcoll
    exact collectErrors_mem p
  · intro q hq
    refine ⟨collectErrors q, ?_, ?_⟩
    · unfold validate
      have : msgMaxLength ∈ collectErrors q := by
        have := (collectErrors_mem q).2.1
        rw [this, hq]
        simp [MAX_LENGTH]
      have hne : ¬ (collectErrors q).isEmpty := by
        cases hcc : collectErrors q with
        | nil => rw [hcc] at this; simp at this
        | cons a l => simp [hcc]
      simp [hne]
    · have := (collectErrors_mem q).2.1
      rw [this, hq]
      simp [MAX_LENGTH]

/-- Witness for claim C9 at concrete inputs: the failure branch at
`"abcdefgh"` and the 101-character branch at the all-`'a'` string. -/
theorem claim_C9_password_policy_witness :
    ((msgUppercase ∈ [msgUppercase, msgDigit, msgSpecial]
        ↔ hasUppercase "abcdefgh" = false)
      ∧ (∃ errs, validate (String.mk (List.replicate 101 'a')) = Except.error errs
          ∧ msgMaxLength ∈ errs)) :=
  ⟨((claim_C9_password_policy "abcdefgh").2.1
      [msgUppercase, msgDigit, msgSpecial] (by rfl)).2.2.1,
   (claim_C9_password_policy "x").2.2.2.2
      (String.mk (List.replicate 101 'a')) (by simp)⟩

end PasswordTheorems

/-! ### Account Lockout Engine theorems -/

theorem authenticate_user_not_locked (svc : AuthenticateService)
    (verify : String → String → Bool) (store : List UserModel)
    (email password : String) (now : Int) (user : UserModel)
    (hfind : get_by_email store email = some user)
    (hnl : ∀ lu, user.locked_until = some lu → lu ≤ now) :
    authenticate_user svc verify store email password now =
      authenticate_verify_step svc verify user password now := by
  simp only [authenticate_user, hfind]
  cases hl : user.locked_until with
  | none => rfl
  | some lu =>
    have hle : lu ≤ now := hnl lu hl
    simp [not_lt.mpr hle]

/-- Claim C3: while the lockout expiry is strictly in the future,
`authenticate_user` raises `AccountLockedError` carrying the unlock
time, for every password and every password-verification function (so
the hash is never consulted), and issues no `update_user` call (hence no
counter increment). -/
theorem claim_C3_locked_rejects_without_verify (svc : AuthenticateService)
    (store : List UserModel) (email : String) (now : Int)
    (user : UserModel) (lu : Int)
    (hfind : get_by_email store email = some user)
    (hlock : user.locked_until = some lu)
    (hfut : now < lu) :
    ∀ (verify : String → String → Bool) (password : String),
      authenticate_user svc verify store email password now =
        { result := Except.error (AuthError.accountLocked lu), updates := [] } := by
  intro verify password
  simp only [authenticate_user, hfind, hlock]
  simp [hfut]

/-- Witness for claim C3: a user locked until time 100, probed at time
50, is rejected with the locked error and no store write, even with a
password the verifier would accept. -/
theorem claim_C3_locked_rejects_without_verify_witness :
    authenticate_user ⟨3, 60⟩ (fun _ _ => true)
        [{ id := some 1, email := "a@b.c", hashed_password := "pw",
           failed_login_attempts := 3, locked_until := some 100 }]
        "a@b.c" "pw" 50 =
      { result := Except.error (AuthError.accountLocked 100), updates := [] } :=
  claim_C3_locked_rejects_without_verify ⟨3, 60⟩
    [{ id := some 1, email := "a@b.c", hashed_password := "pw",
       failed_login_attempts := 3, locked_until := some 100 }]
    "a@b.c" 50
    { id := some 1, email := "a@b.c", hashed_password := "pw",
      failed_login_attempts := 3, locked_until := some 100 }
    100 (by rfl) (by rfl) (by decide) (fun _ _ => true) "pw"

/-- Claim C2: a wrong password against an existing, not-currently-locked
user increments the stored failed-login counter by exactly 1, sets the
lockout expiry to now plus the configured duration whenever the new
count reaches the configured maximum (and leaves it untouched below the
threshold), persists the updated user via `update_user` in either case,
and returns `None`. -/
theorem claim_C2_failed_password_increments (svc : AuthenticateService)
    (verify : String → String → Bool) (store : List UserModel)
    (email password : String) (now : Int) (user : UserModel)
    (hfind : get_by_email store email = some user)
    (hnl : ∀ lu, user.locked_until = some lu → lu ≤ now)
    (hwrong : verify password user.hashed_password = false) :
    ∃ updated : UserModel,
      authenticate_user svc verify store email password now =
          { result := Except.ok none, updates := [updated] }
        ∧ updated.failed_login_attempts = user.failed_login_attempts + 1
        ∧ (svc.max_failed_password_attempts ≤ user.failed_login_attempts + 1 →
            updated.locked_until =
              some (now + 60 * (svc.lockout_duration_in_minutes : Int)))
        ∧ (user.failed_login_attempts + 1 < svc.max_failed_password_attempts →
            updated.locked_until = user.locked_until)
        ∧ updated.email = user.email ∧ updated.id = user.id := by
  have hstep := authenticate_user_not_locked svc verify store email password now
    user hfind hnl
  by_cases hth : svc.max_failed_password_attempts ≤ user.failed_login_attempts + 1
  · refine ⟨{ user with
        failed_login_attempts := user.failed_login_attempts + 1,
        locked_until := some (now + 60 * (svc.lockout_duration_in_minutes : Int)) },
      ?_, rfl, fun _ => rfl, fun h => absurd hth (not_le.mpr h), rfl, rfl⟩
    rw [hstep]
    simp only [authenticate_verify_step, hwrong]
    simp [hth]
  · refine ⟨{ user with
        failed_login_attempts := user.failed_login_attempts + 1 },
      ?_, rfl, fun h => absurd h hth, fun _ => rfl, rfl, rfl⟩
    rw [hstep]
    simp only [authenticate_verify_step, hwrong]
    simp [hth]

/-- Witness for claim C2 at the defaults (max 3 attempts, 60 minutes):
the second wrong password against a user with one prior failure leaves
the lock unset, and the counter moves from 1 to 2. -/
theorem claim_C2_failed_password_increments_witness :
    ∃ updated : UserModel,
      authenticate_user ⟨default_max_failed_password_attempts,
          default_lockout_duration_in_minutes⟩ (fun p h => p == h)
          [{ id := some 1, email := "a@b.c", hashed_password := "pw",
             failed_login_attempts := 1, locked_until := none }]
          "a@b.c" "wrong" 1000 =
          { result := Except.ok none, updates := [updated] }
        ∧ updated.failed_login_attempts = 1 + 1
        ∧ (default_max_failed_password_attempts ≤ 1 + 1 →
            updated.locked_until = some (1000 + 60 * (60 : Int)))
        ∧ (1 + 1 < default_max_failed_password_attempts →
            updated.locked_until = none)
        ∧ updated.email = "a@b.c" ∧ updated.id = some 1 :=
  claim_C2_failed_password_increments
    ⟨default_max_failed_password_attempts, default_lockout_duration_in_minutes⟩
    (fun p h => p == h)
    [{ id := some 1, email := "a@b.c", hashed_password := "pw",
       failed_login_attempts := 1, locked_until := none }]
    "a@b.c" "wrong" 1000
    { id := some 1, email := "a@b.c", hashed_password := "pw",
      failed_login_attempts := 1, locked_until := none }
    (by rfl) (by intro lu h; simp at h) (by rfl)

/-- Claim C4: a correct password against a user whose lock is absent or
already elapsed succeeds with the failed-login counter reset to 0 and
the lockout expiry cleared, and the reset is persisted via
`update_user` exactly when the counter was nonzero or an expiry was
set. -/
theorem claim_C4_success_resets (svc : AuthenticateService)
    (verify : String → String → Bool) (store : List UserModel)
    (email password : String) (now : Int) (user : UserModel)
    (hfind : get_by_email store email = some user)
    (hnl : ∀ lu, user.locked_until = some lu → lu ≤ now)
    (hright : verify password user.hashed_password = true) :
    ∃ u' : UserModel,
      authenticate_user svc verify store email password now =
          { result := Except.ok (some u'),
            updates :=
              if user.failed_login_attempts ≠ 0 ∨ user.locked_until ≠ none then
                [u']
              else [] }
        ∧ u'.failed_login_attempts = 0 ∧ u'.locked_until = none
        ∧ u'.email = user.email ∧ u'.id = user.id := by
  have hstep := authenticate_user_not_locked svc verify store email password now
    user hfind hnl
  by_cases hb : user.failed_login_attempts ≠ 0 ∨ user.locked_until ≠ none
  · refine ⟨{ user with failed_login_attempts := 0, locked_until := none },
      ?_, rfl, rfl, rfl, rfl⟩
    have hcode : (user.failed_login_attempts > 0 || user.locked_until.isSome) = true := by
      rcases hb with h | h
      · simp [Nat.pos_of_ne_zero h]
      · simp [Option.isSome_iff_ne_none.mpr h]
    rw [hstep]
    simp only [authenticate_verify_step, hright]
    simp [hcode, hb]
  · push_neg at hb
    refine ⟨user, ?_, hb.1, hb.2, rfl, rfl⟩
    have hcode : (user.failed_login_attempts > 0 || user.locked_until.isSome) = false := by
      simp [hb.1, hb.2]
    rw [hstep]
    simp only [authenticate_verify_step, hright]
    simp [hcode, hb.1, hb.2]

/-- Witness for claim C4: a correct password after the lock elapsed
(locked until 100, attempted at 200) resets counter 3 to 0, clears the
expiry, and persists the reset. -/
theorem claim_C4_success_resets_witness :
    ∃ u' : UserModel,
      authenticate_user ⟨3, 60⟩ (fun p h => p == h)
          [{ id := some 1, email := "a@b.c", hashed_password := "pw",
             failed_login_attempts := 3, locked_until := some 100 }]
          "a@b.c" "pw" 200 =
          { result := Except.ok (some u'),
            updates :=
              if (3 : Nat) ≠ 0 ∨ (some 100 : Option Int) ≠ none then [u'] else [] }
        ∧ u'.failed_login_attempts = 0 ∧ u'.locked_until = none
        ∧ u'.email = "a@b.c" ∧ u'.id = some 1 :=
  claim_C4_success_resets ⟨3, 60⟩ (fun p h => p == h)
    [{ id := some 1, email := "a@b.c", hashed_password := "pw",
       failed_login_attempts := 3, locked_until := some 100 }]
    "a@b.c" "pw" 200
    { id := some 1, email := "a@b.c", hashed_password := "pw",
      failed_login_attempts := 3, locked_until := some 100 }
    (by rfl) (by intro lu h; simp at h; omega) (by rfl)

theorem user_get_by_id_update (store : List UserModel) (v : UserModel)
    (uid : Nat) (hv : v.id = some uid)
    (h : (user_get_by_id store uid).isSome) :
    user_get_by_id (update_user_in_store store v) uid = some v := by
  unfold user_get_by_id update_user_in_store at *
  rw [List.find?_map]
  have hpred :
      ((fun u => u.id == some uid) ∘ (fun u => if u.id == v.id then v else u))
        = (fun u : UserModel => u.id == some uid) := by
    funext a
    by_cases ha : a.id == v.id
    · have ha' : a.id = v.id := by simpa using ha
      simp [Function.comp, ha, ha']
    · simp [Function.comp, ha]
  rw [hpred]
  obtain ⟨u, hu⟩ := Option.isSome_iff_exists.mp h
  rw [hu]
  have huid : u.id = some uid := by simpa using List.find?_some hu
  simp [Option.map, huid, hv]

theorem update_user_in_store_idem (store : List UserModel) (v : UserModel) :
    update_user_in_store (update_user_in_store store v) v
      = update_user_in_store store v := by
  unfold update_user_in_store
  rw [List.map_map]
  apply List.map_congr_left
  intro a _
  by_cases ha : a.id == v.id <;> simp [Function.comp, ha]

theorem unlock_account_found (store : List UserModel) (uid : Nat)
    (v : UserModel) (h : user_get_by_id store uid = some v) :
    unlock_account store uid =
      (true, update_user_in_store store
        { v with failed_login_attempts := 0, locked_until := none }) := by
  simp only [unlock_account, h]

/-- Claim C8: for an existing user id, `unlock_account` resets the
failed-login counter to 0, clears the lockout expiry, persists the
change and returns `True`, in every starting state; and it is
idempotent, the second application returning the same answer and
leaving the store unchanged. -/
theorem claim_C8_unlock_account (store : List UserModel) (uid : Nat)
    (user : UserModel) (hfind : user_get_by_id store uid = some user) :
    (unlock_account store uid).1 = true
      ∧ user_get_by_id (unlock_account store uid).2 uid =
          some { user with failed_login_attempts := 0, locked_until := none }
      ∧ unlock_account (unlock_account store uid).2 uid
          = unlock_account store uid := by
  have huid : user.id = some uid := by
    simpa using List.find?_some hfind
  have hsome : (user_get_by_id store uid).isSome := by
    rw [hfind]; rfl
  have hout := unlock_account_found store uid user hfind
  have hget2 : user_get_by_id (unlock_account store uid).2 uid =
      some { user with failed_login_attempts := 0, locked_until := none } := by
    rw [hout]
    exact user_get_by_id_update store _ uid (by simpa using huid) hsome
  refine ⟨by rw [hout], hget2, ?_⟩
  rw [unlock_account_found _ _ _ hget2]
  have hvv : ({ ({ user with failed_login_attempts := 0, locked_until := none }
        : UserModel) with failed_login_attempts := 0, locked_until := none }
        : UserModel)
      = { user with failed_login_attempts := 0, locked_until := none } := rfl
  rw [hvv, hout, update_user_in_store_idem]

/-- Witness for claim C8 on a never-locked account: unlock returns
`True`, stores a reset user (already the same state) and is
idempotent. -/
theorem claim_C8_unlock_account_witness :
    (unlock_account
        [{ id := some 7, email := "n@b.c", hashed_password := "pw",
           failed_login_attempts := 0, locked_until := none }] 7).1 = true
      ∧ user_get_by_id (unlock_account
          [{ id := some 7, email := "n@b.c", hashed_password := "pw",
             failed_login_attempts := 0, locked_until := none }] 7).2 7 =
          some { id := some 7, email := "n@b.c", hashed_password := "pw",
                 failed_login_attempts := 0, locked_until := none }
      ∧ unlock_account (unlock_account
          [{ id := some 7, email := "n@b.c", hashed_password := "pw",
             failed_login_attempts := 0, locked_until := none }] 7).2 7
          = unlock_account
          [{ id := some 7, email := "n@b.c", hashed_password := "pw",
             failed_login_attempts := 0, locked_until := none }] 7 :=
  claim_C8_unlock_account
    [{ id := some 7, email := "n@b.c", hashed_password := "pw",
       failed_login_attempts := 0, locked_until := none }] 7
    { id := some 7, email := "n@b.c", hashed_password := "pw",
      failed_login_attempts := 0, locked_until := none }
    (by rfl)

/-! ### Permission Resolver theorems -/

theorem check_role_permission_iff (db : DB) (uid : Nat)
    (sname res act : String) :
    check_role_permission db uid sname res act = true ↔
      ∃ r ∈ db.roles, ∃ ur ∈ db.user_roles, ∃ rp ∈ db.role_permissions,
        ∃ p ∈ db.permissions, ∃ s ∈ db.services,
          ur.role_id = r.id ∧ rp.role_id = r.id ∧ p.id = rp.permission_id
            ∧ s.id = p.service_id ∧ ur.user_id = uid ∧ s.name = sname
            ∧ p.resource = res ∧ p.action = act := by
  unfold check_role_permission
  simp only [List.any_eq_true, Bool.and_eq_true, beq_iff_eq]
  tauto

theorem check_direct_permission_iff (db : DB) (uid : Nat)
    (sname res act : String) :
    check_direct_permission db uid sname res act = true ↔
      ∃ p ∈ db.permissions, ∃ up ∈ db.user_permissions, ∃ s ∈ db.services,
        up.permission_id = p.id ∧ s.id = p.service_id ∧ up.user_id = uid
          ∧ s.name = sname ∧ p.resource = res ∧ p.action = act := by
  unfold check_direct_permission
  simp only [List.any_eq_true, Bool.and_eq_true, beq_iff_eq]
  tauto

/-- Well-formedness of the store asserted by the data model: a
role-permission assignment links a role and a permission of the same
service. -/
def RolePermSameService (db : DB) : Prop :=
  ∀ rp ∈ db.role_permissions, ∀ r ∈ db.roles, ∀ p ∈ db.permissions,
    rp.role_id = r.id → rp.permission_id = p.id → r.service_id = p.service_id

instance (db : DB) : Decidable (RolePermSameService db) := by
  unfold RolePermSameService
  infer_instance

/-- Claim C5: `check_user_permission` returns true iff the user holds a
role in the target service linked through a role-permission assignment
to a permission matching `(service, resource, action)`, or holds a
direct user-permission assignment to a matching permission; the result
is the disjunction of the role-based check (evaluated first) and the
direct-grant check (reached only when the former finds nothing), and
false when neither matches. -/
theorem claim_C5_check_user_permission (db : DB) (user : UserModel)
    (uid : Nat) (sname res act : String)
    (hid : user.id = some uid)
    (hwf : RolePermSameService db) :
    (check_user_permission db user sname res act = true ↔
      ((∃ r ∈ db.roles, ∃ s ∈ db.services, ∃ ur ∈ db.user_roles,
          ∃ rp ∈ db.role_permissions, ∃ p ∈ db.permissions,
            ur.user_id = uid ∧ ur.role_id = r.id
              ∧ r.service_id = s.id ∧ s.name = sname
              ∧ rp.role_id = r.id ∧ rp.permission_id = p.id
              ∧ p.service_id = s.id ∧ p.resource = res ∧ p.action = act)
        ∨ (∃ p ∈ db.permissions, ∃ up ∈ db.user_permissions,
            ∃ s ∈ db.services,
              up.user_id = uid ∧ up.permission_id = p.id
                ∧ s.id = p.service_id ∧ s.name = sname
                ∧ p.resource = res ∧ p.action = act)))
      ∧ check_user_permission db user sname res act
          = (check_role_permission db uid sname res act
              || check_direct_permission db uid sname res act) := by
  have hor : check_user_permission db user sname res act
      = (check_role_permission db uid sname res act
          || check_direct_permission db uid sname res act) := by
    simp only [check_user_permission, hid]
    by_cases hr : check_role_permission db uid sname res act = true
    · simp [hr]
    · simp [Bool.eq_false_iff.mpr hr]
  refine ⟨?_, hor⟩
  rw [hor, Bool.or_eq_true, check_role_permission_iff, check_direct_permission_iff]
  constructor
  · rintro (⟨r, hr, ur, hur, rp, hrp, p, hp, s, hs,
        hur1, hrp1, hpid, hsid, huid, hsn, hres, hact⟩ |
      ⟨p, hp, up, hup, s, hs, hup1, hsid, huid, hsn, hres, hact⟩)
    · left
      have hsame : r.service_id = p.service_id :=
        hwf rp hrp r hr p hp hrp1 hpid.symm
      exact ⟨r, hr, s, hs, ur, hur, rp, hrp, p, hp, huid, hur1,
        hsame.trans hsid.symm, hsn, hrp1, hpid.symm, hsid.symm, hres, hact⟩
    · right
      exact ⟨p, hp, up, hup, s, hs, huid, hup1, hsid, hsn, hres, hact⟩
  · rintro (⟨r, hr, s, hs, ur, hur, rp, hrp, p, hp,
        huid, hur1, hrs, hsn, hrp1, hpid, hps, hres, hact⟩ |
      ⟨p, hp, up, hup, s, hs, huid, hup1, hsid, hsn, hres, hact⟩)
    · left
      exact ⟨r, hr, ur, hur, rp, hrp, p, hp, s, hs,
        hur1, hrp1, hpid.symm, hps.symm, huid, hsn, hres, hact⟩
    · right
      exact ⟨p, hp, up, hup, s, hs, hup1, hsid, huid, hsn, hres, hact⟩

/-- Witness for claim C5: in a store with one role-granted permission
and an unrelated user, the check is true for the role holder (through
the role disjunct) and false for a triple nobody matches. -/
theorem claim_C5_check_user_permission_witness :
    (check_user_permission
        { services := [{ id := 1, name := "svc" }],
          roles := [{ id := 10, service_id := 1, name := "admin" }],
          user_roles := [{ user_id := 7, role_id := 10 }],
          permissions := [{ id := 20, service_id := 1, name := "read docs",
                            resource := "doc", action := "read" }],
          role_permissions := [{ role_id := 10, permission_id := 20 }],
          user_permissions := [] }
        { id := some 7, email := "a@b.c", hashed_password := "pw",
          failed_login_attempts := 0, locked_until := none }
        "svc" "doc" "read" = true) ∧
    (check_user_permission
        { services := [{ id := 1, name := "svc" }],
          roles := [{ id := 10, service_id := 1, name := "admin" }],
          user_roles := [{ user_id := 7, role_id := 10 }],
          permissions := [{ id := 20, service_id := 1, name := "read docs",
                            resource := "doc", action := "read" }],
          role_permissions := [{ role_id := 10, permission_id := 20 }],
          user_permissions := [] }
        { id := some 7, email := "a@b.c", hashed_password := "pw",
          failed_login_attempts := 0, locked_until := none }
        "svc" "doc" "write" = false) := by
  constructor
  · exact (claim_C5_check_user_permission _ _ 7 "svc" "doc" "read"
      (by rfl) (by decide)).1.mpr
      (Or.inl ⟨{ id := 10, service_id := 1, name := "admin" }, by decide,
        { id := 1, name := "svc" }, by decide,
        { user_id := 7, role_id := 10 }, by decide,
        { role_id := 10, permission_id := 20 }, by decide,
        { id := 20, service_id := 1, name := "read docs",
          resource := "doc", action := "read" }, by decide,
        rfl, rfl, rfl, rfl, rfl, rfl, rfl, rfl, rfl⟩)
  · have h := (claim_C5_check_user_permission
      { services := [{ id := 1, name := "svc" }],
        roles := [{ id := 10, service_id := 1, name := "admin" }],
        user_roles := [{ user_id := 7, role_id := 10 }],
        permissions := [{ id := 20, service_id := 1, name := "read docs",
                          resource := "doc", action := "read" }],
        role_permissions := [{ role_id := 10, permission_id := 20 }],
        user_permissions := [] }
      { id := some 7, email := "a@b.c", hashed_password := "pw",
        failed_login_attempts := 0, locked_until := none }
      7 "svc" "doc" "write" (by rfl) (by decide)).1
    by_cases hb : check_user_permission
        { services := [{ id := 1, name := "svc" }],
          roles := [{ id := 10, service_id := 1, name := "admin" }],
          user_roles := [{ user_id := 7, role_id := 10 }],
          permissions := [{ id := 20, service_id := 1, name := "read docs",
                            resource := "doc", action := "read" }],
          role_permissions := [{ role_id := 10, permission_id := 20 }],
          user_permissions := [] }
        { id := some 7, email := "a@b.c", hashed_password := "pw",
          failed_login_attempts := 0, locked_until := none }
        "svc" "doc" "write" = true
    · exfalso
      rcases h.mp hb with hrole | hdirect
      · revert hrole; decide
      · revert hdirect; decide
    · simpa using hb

theorem countP_singleton_pred {α : Type _} (a : α) :
    ∀ (l : List α), l.Nodup → a ∈ l → ∀ (pred : α → Bool),
      (∀ x ∈ l, (pred x = true ↔ x = a)) → l.countP pred = 1 := by
  intro l
  induction l with
  | nil => intro _ ha; cases ha
  | cons b t ih =>
    intro hn ha pred hpred
    rw [List.countP_cons]
    rcases List.mem_cons.mp ha with rfl | hat
    · have hb : pred a = true := (hpred a (List.mem_cons_self a t)).mpr rfl
      have ht0 : t.countP pred = 0 := by
        rw [List.countP_eq_zero]
        intro x hx hpx
        have hxa : x = a := (hpred x (List.mem_cons_of_mem a hx)).mp hpx
        exact (List.nodup_cons.mp hn).1 (hxa ▸ hx)
      simp [hb, ht0]
    · have hb : ¬ pred b = true := by
        intro hpb
        have hba : b = a := (hpred b (List.mem_cons_self b t)).mp hpb
        have : b ∈ t := by rw [hba]; exact hat
        exact (List.nodup_cons.mp hn).1 this
      have ht1 : t.countP pred = 1 :=
        ih (List.nodup_cons.mp hn).2 hat pred
          (fun x hx => hpred x (List.mem_cons_of_mem b hx))
      simp [hb, ht1]

/-- Claim C6: a permission reachable both through one of the user's
roles and through a direct grant yields two entries in
`get_user_permissions` — one tagged `source='role'` and one tagged
`source='direct'` — agreeing on service name, resource, action and
permission name; the two are distinct entries, never merged. -/
theorem claim_C6_duplicate_across_sources (db : DB) (user : UserModel)
    (uid : Nat) (sf : Option String) (p : PermissionRow) (sn : String)
    (hid : user.id = some uid)
    (hrole : (p, sn) ∈ rolePermRows db uid sf)
    (hdirect : (p, sn) ∈ directPermRows db uid sf) :
    mkRoleEntry (p, sn) ∈ get_user_permissions db user sf
      ∧ mkDirectEntry (p, sn) ∈ get_user_permissions db user sf
      ∧ (mkRoleEntry (p, sn)).service_name = (mkDirectEntry (p, sn)).service_name
      ∧ (mkRoleEntry (p, sn)).resource = (mkDirectEntry (p, sn)).resource
      ∧ (mkRoleEntry (p, sn)).action = (mkDirectEntry (p, sn)).action
      ∧ (mkRoleEntry (p, sn)).name = (mkDirectEntry (p, sn)).name
      ∧ (mkRoleEntry (p, sn)).source = "role"
      ∧ (mkDirectEntry (p, sn)).source = "direct"
      ∧ mkRoleEntry (p, sn) ≠ mkDirectEntry (p, sn) := by
  simp only [get_user_permissions, hid]
  refine ⟨?_, ?_, rfl, rfl, rfl, rfl, rfl, rfl, ?_⟩
  · exact List.mem_append.mpr (Or.inl
      (List.mem_map.mpr ⟨(p, sn), List.mem_dedup.mpr hrole, rfl⟩))
  · exact List.mem_append.mpr (Or.inr
      (List.mem_map.mpr ⟨(p, sn), hdirect, rfl⟩))
  · intro h
    have hs := congrArg PermEntry.source h
    simp [mkRoleEntry, mkDirectEntry] at hs

/-- User fixture shared by the permission-resolver witnesses. -/
def userW : UserModel :=
  { id := some 7, email := "a@b.c", hashed_password := "pw",
    failed_login_attempts := 0, locked_until := none }

/-- Permission fixture shared by the permission-resolver witnesses. -/
def permW : PermissionRow :=
  { id := 20, service_id := 1, name := "read docs",
    resource := "doc", action := "read" }

/-- Store fixture for the C6 witness: one permission granted both via
role 10 and directly. -/
def dbC6 : DB :=
  { services := [{ id := 1, name := "svc" }],
    roles := [{ id := 10, service_id := 1, name := "admin" }],
    user_roles := [{ user_id := 7, role_id := 10 }],
    permissions := [permW],
    role_permissions := [{ role_id := 10, permission_id := 20 }],
    user_permissions := [{ user_id := 7, permission_id := 20 }] }

/-- Witness for claim C6: the permission granted to user 7 both through
role 10 and directly yields one entry per source, distinct. -/
theorem claim_C6_duplicate_across_sources_witness :
    mkRoleEntry (permW, "svc") ∈ get_user_permissions dbC6 userW none
      ∧ mkDirectEntry (permW, "svc") ∈ get_user_permissions dbC6 userW none
      ∧ mkRoleEntry (permW, "svc") ≠ mkDirectEntry (permW, "svc") := by
  have h := claim_C6_duplicate_across_sources dbC6 userW 7 none permW "svc"
    (by rfl) (by decide) (by decide)
  exact ⟨h.1, h.2.1, h.2.2.2.2.2.2.2.2⟩

/-- Claim C10: within the role-derived portion of
`get_user_permissions` entries are de-duplicated — a permission
reachable through the user's roles (one or several) yields exactly one
entry tagged `source='role'`, provided no other role-reachable row
projects to the same visible fields — while the direct-grant rows are
appended afterwards, one entry per row, with no de-duplication; all
role-tagged entries precede all direct-tagged ones. -/
theorem claim_C10_role_dedup_direct_append (db : DB) (user : UserModel)
    (uid : Nat) (sf : Option String) (p : PermissionRow) (sn : String)
    (hid : user.id = some uid)
    (hrole : (p, sn) ∈ rolePermRows db uid sf)
    (huniq : ∀ q ∈ rolePermRows db uid sf,
        q.1.resource = p.resource → q.1.action = p.action →
          q.1.name = p.name → q.2 = sn → q = (p, sn)) :
    (get_user_permissions db user sf).count (mkRoleEntry (p, sn)) = 1
      ∧ (get_user_permissions db user sf).countP
          (fun e => e.source == "direct") = (directPermRows db uid sf).length
      ∧ get_user_permissions db user sf
          = (get_user_permissions db user sf).filter
              (fun e => e.source == "role")
            ++ (get_user_permissions db user sf).filter
              (fun e => e.source == "direct") := by
  simp only [get_user_permissions, hid]
  have hArole : ∀ e ∈ (rolePermRows db uid sf).dedup.map mkRoleEntry,
      e.source = "role" := by
    intro e he
    obtain ⟨q, _, rfl⟩ := List.mem_map.mp he
    rfl
  have hBdirect : ∀ e ∈ (directPermRows db uid sf).map mkDirectEntry,
      e.source = "direct" := by
    intro e he
    obtain ⟨q, _, rfl⟩ := List.mem_map.mp he
    rfl
  refine ⟨?_, ?_, ?_⟩
  · rw [List.count_append]
    have hB0 : ((directPermRows db uid sf).map mkDirectEntry).count
        (mkRoleEntry (p, sn)) = 0 := by
      rw [List.count_eq_zero]
      intro hmem
      have hs := hBdirect _ hmem
      simp [mkRoleEntry] at hs
    rw [hB0, Nat.add_zero, List.count_eq_countP, List.countP_map]
    refine countP_singleton_pred (p, sn) (rolePermRows db uid sf).dedup
      (List.nodup_dedup _) (List.mem_dedup.mpr hrole) _ ?_
    intro q hq
    simp only [Function.comp, beq_iff_eq]
    constructor
    · intro he
      exact huniq q (List.mem_dedup.mp hq)
        (congrArg PermEntry.resource he) (congrArg PermEntry.action he)
        (congrArg PermEntry.name he) (congrArg PermEntry.service_name he)
    · intro he
      rw [he]
  · rw [List.countP_append]
    have hA0 : ((rolePermRows db uid sf).dedup.map mkRoleEntry).countP
        (fun e => e.source == "direct") = 0 := by
      rw [List.countP_eq_zero]
      intro e he
      rw [hArole e he]
      decide
    have hBall : ((directPermRows db uid sf).map mkDirectEntry).countP
        (fun e => e.source == "direct")
        = ((directPermRows db uid sf).map mkDirectEntry).length := by
      rw [List.countP_eq_length]
      intro e he
      rw [hBdirect e he]
      decide
    rw [hA0, hBall, List.length_map, Nat.zero_add]
  · rw [List.filter_append, List.filter_append]
    have h1 : ((rolePermRows db uid sf).dedup.map mkRoleEntry).filter
        (fun e => e.source == "role")
        = (rolePermRows db uid sf).dedup.map mkRoleEntry := by
      rw [List.filter_eq_self]
      intro e he
      rw [hArole e he]
      decide
    have h2 : ((directPermRows db uid sf).map mkDirectEntry).filter
        (fun e => e.source == "role") = [] := by
      rw [List.filter_eq_nil_iff]
      intro e he
      rw [hBdirect e he]
      decide
    have h3 : ((rolePermRows db uid sf).dedup.map mkRoleEntry).filter
        (fun e => e.source == "direct") = [] := by
      rw [List.filter_eq_nil_iff]
      intro e he
      rw [hArole e he]
      decide
    have h4 : ((directPermRows db uid sf).map mkDirectEntry).filter
        (fun e => e.source == "direct")
        = (directPermRows db uid sf).map mkDirectEntry := by
      rw [List.filter_eq_self]
      intro e he
      rw [hBdirect e he]
      decide
    rw [h1, h2, h3, h4, List.append_nil, List.nil_append]

/-- Store fixture for the C10 witness: the same permission reachable
through two different roles, plus one direct grant. -/
def dbC10 : DB :=
  { services := [{ id := 1, name := "svc" }],
    roles := [{ id := 10, service_id := 1, name := "admin" },
              { id := 11, service_id := 1, name := "editor" }],
    user_roles := [{ user_id := 7, role_id := 10 },
                   { user_id := 7, role_id := 11 }],
    permissions := [permW],
    role_permissions := [{ role_id := 10, permission_id := 20 },
                         { role_id := 11, permission_id := 20 }],
    user_permissions := [{ user_id := 7, permission_id := 20 }] }

/-- Witness for claim C10: user 7 reaches `permW` through roles 10 and
11 yet gets exactly one role-tagged entry, while the direct grant
yields exactly one appended direct-tagged entry. -/
theorem claim_C10_role_dedup_direct_append_witness :
    (get_user_permissions dbC10 userW none).count
        (mkRoleEntry (permW, "svc")) = 1
      ∧ (get_user_permissions dbC10 userW none).countP
          (fun e => e.source == "direct")
        = (directPermRows dbC10 7 none).length := by
  have h := claim_C10_role_dedup_direct_append dbC10 userW 7 none permW "svc"
    (by rfl) (by decide) (by decide)
  exact ⟨h.1, h.2.1⟩

/-! ### Token Service theorems -/

/-- Store fixture for claim C1: user 7 holds TWO roles in the same
service (`admin` and `user`, both owned by service 1 named `svc`). -/
def dbC1 : DB :=
  { services := [{ id := 1, name := "svc" }],
    roles := [{ id := 10, service_id := 1, name := "admin" },
              { id := 11, service_id := 1, name := "user" }],
    user_roles := [{ user_id := 7, role_id := 10 },
                   { user_id := 7, role_id := 11 }],
    permissions := [],
    role_permissions := [],
    user_permissions := [] }

/-- Claim C1 fails on the code: `get_user_roles` returns both of user
7's roles in service `svc`, yet the issued token's `roles` claim maps
`svc` to `["user"]` only — the membership test in the grouping loop
checks the stringified service id against a dict keyed by service
names, so every role resets its service's list and only the last role
name survives. -/
theorem claim_C1_roles_grouping_drops_roles :
    (get_user_roles dbC1 userW).map RoleModel.name = ["admin", "user"]
      ∧ (create_access_token ⟨"secret", "HS256"⟩ dbC1 userW 3600 0).map
          (fun tok => tok.payload.roles)
        = Except.ok [("svc", ["user"])]
      ∧ ∀ names, dictGet [("svc", ["user"])] "svc" = some names →
          "admin" ∉ names := by
  refine ⟨rfl, rfl, ?_⟩
  intro names h
  simp only [dictGet, List.find?] at h
  simp at h
  subst h
  decide

/-- Claim C7: resolving a token right after issuing it (same key, before
expiry) recovers the stored user — hence the same subject id and email —
together with the freshly fetched roles; resolving once the ttl has
elapsed fails, resolving under a different signing key fails, and at the
exposed boundary (`get_authenticated_user`) every failure is collapsed
to the single generic invalid-or-expired error. -/
theorem claim_C7_token_roundtrip (svc : TokenService) (db : DB)
    (store : List UserModel) (user : UserModel) (uid : Nat)
    (ttl now : Int) (tok : JwtToken)
    (hid : user.id = some uid)
    (hstore : user_get_by_id store uid = some user)
    (hroles : get_user_roles db user ≠ [])
    (hissue : create_access_token svc db user ttl now = Except.ok tok) :
    (∀ now2 : Int, now2 < now + ttl →
        token_get_user svc db store tok now2
          = Except.ok { user := user, roles := get_user_roles db user })
      ∧ (∀ now2 : Int, now + ttl ≤ now2 →
          ∃ e, token_get_user svc db store tok now2 = Except.error e)
      ∧ (∀ key2 alg2 : String, key2 ≠ svc.secret_key →
          ∀ now2 : Int, ∃ e,
            token_get_user ⟨key2, alg2⟩ db store tok now2 = Except.error e)
      ∧ (∀ (svc2 : TokenService) (tok2 : JwtToken) (now2 : Int) (e : String),
          token_get_user svc2 db store tok2 now2 = Except.error e →
          get_authenticated_user svc2 db store tok2 now2
            = Except.error "Invalid or expired token.") := by
  obtain ⟨rbs, hrbs, htok⟩ : ∃ rbs,
      group_roles db (get_user_roles db user) = Except.ok rbs
        ∧ tok = jwt_encode
            { sub := uid, email := user.email, roles := rbs,
              exp := now + ttl, iat := now } svc.secret_key svc.algorithm := by
    simp only [create_access_token, hid] at hissue
    cases hg : group_roles db (get_user_roles db user) with
    | error e =>
      rw [hg] at hissue
      simp [Bind.bind, Except.bind] at hissue
    | ok rbs =>
      rw [hg] at hissue
      simp only [Bind.bind, Except.bind, Except.ok.injEq] at hissue
      exact ⟨rbs, rfl, hissue.symm⟩
  have hlenf : ((get_user_roles db user).length == 0) = false := by
    simp [List.length_eq_zero]
    exact hroles
  refine ⟨?_, ?_, ?_, ?_⟩
  · intro now2 h2
    rw [htok]
    unfold token_get_user jwt_decode jwt_encode
    have hexp : ¬ (now + ttl ≤ now2) := not_le.mpr h2
    simp only [Bind.bind, Except.bind]
    simp [hexp, hstore, hlenf]
  · intro now2 h2
    refine ⟨"Signature has expired", ?_⟩
    rw [htok]
    unfold token_get_user jwt_decode jwt_encode
    simp only [Bind.bind, Except.bind]
    simp [h2]
  · intro key2 alg2 hk now2
    refine ⟨"Signature verification failed", ?_⟩
    rw [htok]
    unfold token_get_user jwt_decode jwt_encode
    simp only [Bind.bind, Except.bind]
    simp [Ne.symm hk]
  · intro svc2 tok2 now2 e herr
    unfold get_authenticated_user
    rw [herr]

/-- Payload of the token fixture issued for user 7 against `dbC6`. -/
def payloadW : TokenPayload :=
  { sub := 7, email := "a@b.c", roles := [("svc", ["admin"])],
    exp := 3600, iat := 0 }

/-- Token fixture issued for user 7 against `dbC6` with key `k1`. -/
def tokW : JwtToken :=
  { payload := payloadW, key := "k1", alg := "HS256" }

/-- Witness for claim C7: issue for user 7 at time 0 with ttl 3600 and
resolve at time 1 under the same key, recovering the stored user. -/
theorem claim_C7_token_roundtrip_witness :
    user_get_by_id [userW] 7 = some userW
      ∧ get_user_roles dbC6 userW ≠ []
      ∧ create_access_token ⟨"k1", "HS256"⟩ dbC6 userW 3600 0
          = Except.ok tokW
      ∧ token_get_user ⟨"k1", "HS256"⟩ dbC6 [userW] tokW 1
          = Except.ok { user := userW, roles := get_user_roles dbC6 userW } :=
  ⟨rfl, by decide, rfl,
    (claim_C7_token_roundtrip ⟨"k1", "HS256"⟩ dbC6 [userW] userW 7 3600 0 tokW
        (by rfl) (by rfl) (by decide) (by rfl)).1 1 (by decide)⟩

end IdentityService
